import Mathlib

/-!
Shallow embedding of `src/test_fcm_notifications.py`, the FCM verification
harness.  Python's side effects are modelled explicitly:

* printed lines are accumulated in a `List String`;
* a raised exception is an `Except.error` carrying the message;
* `try/except Exception` is `pyTry`, which turns any error into printed
  diagnostics and a `false` outcome;
* an HTTP exchange is a value of `HttpResult β`: either a response with a
  status code, raw text and parsed JSON body, or a transport-level fault
  (`requests` raising);
* JSON dictionary fields that the script reads with `d[key]` are `Option`
  fields; a `none` read raises (Python `KeyError`), while fields read with
  `d.get(key, default)` are read with `Option.getD`.
-/

/-- The effect monad of one Python operation body: printed output so far,
then either a normal result or a raised exception.  Output printed before
an exception is kept, as with Python's stdout. -/
abbrev PyM (α : Type) : Type := List String × Except String α

/-- Printing one line. -/
def pemit (s : String) : PyM Unit := ([s], Except.ok ())

/-- Raising an exception. -/
def pyRaise {α : Type} (e : String) : PyM α := ([], Except.error e)

/-- Returning a value. -/
def pyPure {α : Type} (a : α) : PyM α := ([], Except.ok a)

/-- Sequencing: statement `m` runs first; if it raises, the rest of the
body is skipped and the exception propagates, keeping the output printed
so far. -/
def pseq {α β : Type} (m : PyM α) (f : α → PyM β) : PyM β :=
  match m.2 with
  | Except.error e => (m.1, Except.error e)
  | Except.ok a => (m.1 ++ (f a).1, (f a).2)

/-- Whether a computation ended in a raised exception. -/
def PyM.errored {α : Type} (m : PyM α) : Bool :=
  match m.2 with
  | Except.error _ => true
  | Except.ok _ => false

/-- Python `try: body except Exception as e: print(handler e); return False`:
the whole operation body runs under this guard, so it always returns a
plain boolean, never an exception. -/
def pyTry (m : PyM Bool) (handler : String → List String) : List String × Bool :=
  match m.2 with
  | Except.ok b => (m.1, b)
  | Except.error e => (m.1 ++ handler e, false)

/-- Reading `d[key]` from a JSON object: raises `KeyError` when absent. -/
def getKey (v : Option String) (k : String) : PyM String :=
  match v with
  | some s => ([], Except.ok s)
  | none => ([], Except.error ("KeyError: " ++ k))

/-- Python truthiness of an `Optional[str]`: `None` and `""` are falsy. -/
def truthyOpt : Option String → Bool
  | some s => !s.isEmpty
  | none => false

/-- One HTTP exchange: a response (status code, raw `response.text`, parsed
JSON body) or a transport-level fault raised by `requests`. -/
inductive HttpResult (β : Type) : Type
  | resp (status : Nat) (text : String) (body : β)
  | exn (msg : String)

/-- A Device Token Record as returned by the token-query interfaces.
Every field the script may read by subscript is optional, so that a
response body lacking an expected field (a shape fault) is expressible. -/
structure TokenRecord : Type where
  user_id : Option String
  token : Option String
  device_id : Option String
  platform : Option String
  app_version : Option String
  updated_at : Option String
deriving DecidableEq

/-- One per-device entry of the dispatch endpoint's `results` list. -/
structure DispatchResultEntry : Type where
  device_id : Option String
  platform : Option String
  token : Option String
deriving DecidableEq

/-- The `summary` object of a dispatch response; all fields are read with
`.get(key, default)`. -/
structure DispatchSummary : Type where
  total_tokens : Option String
  notification_type : Option String
  title : Option String
  body : Option String
deriving DecidableEq

/-- The JSON body of a dispatch-endpoint response: `message` is read with
`.get`, `results` and `summary` are probed with `in` before use. -/
structure DispatchBody : Type where
  message : Option String
  results : Option (List DispatchResultEntry)
  summary : Option DispatchSummary
deriving DecidableEq

/-- The notification payload built by `send_test_notification`: fixed
title/body/type, a per-run test id derived from the current time, and the
target selector fields, each present only when its argument was truthy. -/
structure NotifPayload : Type where
  title : String
  body : String
  type_tag : String
  data_test_id : String
  data_source : String
  user_id : Option String
  test_all_users : Bool
deriving DecidableEq

/-- A request issued to the dispatch endpoint
`/functions/v1/send-test-notification`: the minimal health probe
`{"test": "health_check"}` or a full notification payload. -/
inductive DispatchRequest : Type
  | healthProbe
  | notif (p : NotifPayload)
deriving DecidableEq

/-! ## `FCMTester.__init__` and request URLs -/

/-- `l` with every trailing `'/'` removed, on character lists. -/
def rstripSlashList (l : List Char) : List Char :=
  (l.reverse.dropWhile (fun c => c = '/')).reverse

/-- Python `s.rstrip('/')`: strip all trailing slash characters. -/
def rstripSlash (s : String) : String :=
  ⟨rstripSlashList s.data⟩

/-- The Verification Client's state: base address (normalised at
construction) and credential. -/
structure FCMTester : Type where
  supabase_url : String
  supabase_anon_key : String

/-- `FCMTester.__init__`: stores `supabase_url.rstrip('/')` and the key. -/
def FCMTester.init (supabase_url supabase_anon_key : String) : FCMTester :=
  { supabase_url := rstripSlash supabase_url
    supabase_anon_key := supabase_anon_key }

/-- URL queried by `test_token_registration`. -/
def FCMTester.tokenRegUrl (t : FCMTester) : String :=
  t.supabase_url ++ "/rest/v1/rpc/get_all_active_fcm_tokens"

/-- URL called by `send_test_notification` and `test_edge_function_health`. -/
def FCMTester.dispatchUrl (t : FCMTester) : String :=
  t.supabase_url ++ "/functions/v1/send-test-notification"

/-- URL queried by `get_user_fcm_tokens`. -/
def FCMTester.userTokensUrl (t : FCMTester) : String :=
  t.supabase_url ++ "/rest/v1/rpc/get_user_fcm_tokens"

/-! ## `test_token_registration` -/

/-- The body of the display loop for one record shown by
`test_token_registration` (fields accessed in source order:
`user_id`, `token`, `device_id`, `platform`, `updated_at`; the token is
truncated to its first 20 characters followed by `...`). -/
def printTokenRegEntry (i : Nat) (t : TokenRecord) : PyM Unit :=
  pseq (getKey t.user_id "user_id") (fun u =>
  pseq (pemit ("  " ++ toString (i+1) ++ ". User: " ++ u)) (fun _ =>
  pseq (getKey t.token "token") (fun tok =>
  pseq (pemit ("     Token: " ++ tok.take 20 ++ "...")) (fun _ =>
  pseq (getKey t.device_id "device_id") (fun d =>
  pseq (pemit ("     Device: " ++ d)) (fun _ =>
  pseq (getKey t.platform "platform") (fun p =>
  pseq (pemit ("     Platform: " ++ p)) (fun _ =>
  pseq (getKey t.updated_at "updated_at") (fun upd =>
  pseq (pemit ("     Updated: " ++ upd)) (fun _ =>
  pemit ""))))))))))

/-- `for i, token in enumerate(tokens[:5])` display loop (the `[:5]` cut is
applied by the caller). -/
def printTokenRegLoop : Nat → List TokenRecord → PyM Unit
  | _, [] => pyPure ()
  | i, t :: ts => pseq (printTokenRegEntry i t) (fun _ => printTokenRegLoop (i+1) ts)

/-- The `try:` body of `test_token_registration`, given the outcome of the
POST to the token-query interface. -/
def tokenRegBody : HttpResult (List TokenRecord) → PyM Bool
  | HttpResult.exn e => pyRaise e
  | HttpResult.resp code text tokens =>
    if code = 200 then
      pseq (pemit ("✅ Found " ++ toString tokens.length ++ " active FCM tokens in database")) (fun _ =>
      pseq (if tokens.isEmpty then
              pemit "⚠️  No active FCM tokens found. Make sure to register tokens from your iOS app first."
            else
              pseq (pemit "\n📱 Active FCM tokens:") (fun _ =>
              printTokenRegLoop 0 (tokens.take 5))) (fun _ =>
      pyPure true))
    else
      pseq (pemit ("❌ Failed to get FCM tokens: " ++ toString code)) (fun _ =>
      pseq (pemit ("Response: " ++ text)) (fun _ =>
      pyPure false))

/-- `FCMTester.test_token_registration`, as a function of the HTTP
exchange's outcome. -/
def test_token_registration (r : HttpResult (List TokenRecord)) : List String × Bool :=
  let res := pyTry (tokenRegBody r)
    (fun e => ["❌ Error testing token registration: " ++ e])
  ("🔍 Testing FCM token registration..." :: res.1, res.2)

/-! ## `test_edge_function_health` -/

/-- The `try:` body of `test_edge_function_health`: a 400 (missing
required fields) is a designed positive signal alongside 200. -/
def healthBody : HttpResult DispatchBody → PyM Bool
  | HttpResult.exn e => pyRaise e
  | HttpResult.resp s text _ =>
    if s = 200 ∨ s = 400 then
      pseq (pemit "✅ Edge function is accessible") (fun _ => pyPure true)
    else
      pseq (pemit ("❌ Edge function returned unexpected status: " ++ toString s)) (fun _ =>
      pseq (pemit ("Response: " ++ text)) (fun _ =>
      pyPure false))

/-- `FCMTester.test_edge_function_health`, as a function of the HTTP
exchange's outcome. -/
def test_edge_function_health (r : HttpResult DispatchBody) : List String × Bool :=
  let res := pyTry (healthBody r)
    (fun e => ["❌ Error testing edge function: " ++ e])
  ("🔍 Testing edge function health..." :: res.1, res.2)

/-! ## `send_test_notification` -/

/-- One entry of the per-device results display (first three entries
only); the token is printed in full here. -/
def printSendEntry (i : Nat) (e : DispatchResultEntry) : PyM Unit :=
  pseq (getKey e.device_id "device_id") (fun d =>
  pseq (getKey e.platform "platform") (fun p =>
  pseq (pemit ("     " ++ toString (i+1) ++ ". Device: " ++ d ++ " (" ++ p ++ ")")) (fun _ =>
  pseq (getKey e.token "token") (fun tok =>
  pemit ("        Token: " ++ tok)))))

/-- `for i, res in enumerate(result['results'][:3])` display loop. -/
def printSendLoop : Nat → List DispatchResultEntry → PyM Unit
  | _, [] => pyPure ()
  | i, e :: es => pseq (printSendEntry i e) (fun _ => printSendLoop (i+1) es)

/-- The summary block display (all reads use `.get` with defaults). -/
def printSendSummary (sm : DispatchSummary) : PyM Unit :=
  pseq (pemit "\n📊 Summary:") (fun _ =>
  pseq (pemit ("   Total tokens: " ++ sm.total_tokens.getD "N/A")) (fun _ =>
  pseq (pemit ("   Type: " ++ sm.notification_type.getD "N/A")) (fun _ =>
  pseq (pemit ("   Title: " ++ sm.title.getD "N/A")) (fun _ =>
  pemit ("   Body: " ++ sm.body.getD "N/A")))))

/-- The notification payload built by `send_test_notification`: fields
`user_id` / `test_all_users` are added only when the argument is truthy;
`t_now` stands for `int(time.time())`. -/
def notifPayload (user_id : Option String) (test_all_users : Bool) (t_now : Nat) :
    NotifPayload :=
  { title := "🧪 Test Notification"
    body := "This is a test notification from the FCM testing script"
    type_tag := "test"
    data_test_id := "test_" ++ toString t_now
    data_source := "testing_script"
    user_id := if truthyOpt user_id then user_id else none
    test_all_users := test_all_users }

/-- The `try:` body of `send_test_notification`, given the outcome of the
POST of the payload to the dispatch endpoint. -/
def sendBody : HttpResult DispatchBody → PyM Bool
  | HttpResult.exn e => pyRaise e
  | HttpResult.resp code text body =>
    if code = 200 then
      pseq (pemit "✅ Test notification sent successfully!") (fun _ =>
      pseq (pemit ("   Message: " ++ body.message.getD "No message")) (fun _ =>
      pseq (match body.results with
            | some rs =>
              pseq (pemit ("   Sent to " ++ toString rs.length ++ " device(s)")) (fun _ =>
              printSendLoop 0 (rs.take 3))
            | none => pyPure ()) (fun _ =>
      pseq (match body.summary with
            | some sm => printSendSummary sm
            | none => pyPure ()) (fun _ =>
      pyPure true))))
    else
      pseq (pemit ("❌ Failed to send test notification: " ++ toString code)) (fun _ =>
      pseq (pemit ("Response: " ++ text)) (fun _ =>
      pyPure false))

/-- `FCMTester.send_test_notification`.  Besides the printed report and
boolean outcome it returns the list of requests it issued to the dispatch
endpoint, so that "no network call" is observable.  `dispatch` is the
backend's behaviour on the endpoint. -/
def send_test_notification (user_id : Option String) (test_all_users : Bool)
    (t_now : Nat) (dispatch : DispatchRequest → HttpResult DispatchBody) :
    List DispatchRequest × List String × Bool :=
  let hdr := "📤 Sending test notification..."
  if truthyOpt user_id then
    let pay := notifPayload user_id test_all_users t_now
    let res := pyTry (sendBody (dispatch (DispatchRequest.notif pay)))
      (fun e => ["❌ Error sending test notification: " ++ e])
    ([DispatchRequest.notif pay],
     hdr :: ("   Target: User " ++ user_id.getD "") :: res.1, res.2)
  else if test_all_users then
    let pay := notifPayload user_id test_all_users t_now
    let res := pyTry (sendBody (dispatch (DispatchRequest.notif pay)))
      (fun e => ["❌ Error sending test notification: " ++ e])
    ([DispatchRequest.notif pay],
     hdr :: "   Target: All users" :: res.1, res.2)
  else
    ([], [hdr, "❌ Either user_id or test_all_users must be specified"], false)

/-! ## `get_user_fcm_tokens` -/

/-- One record of the per-user token listing (fields accessed in source
order: `token`, `device_id`, `platform`, `app_version`, `updated_at`; the
token is truncated to 20 characters plus `...`). -/
def printUserTokenEntry (i : Nat) (t : TokenRecord) : PyM Unit :=
  pseq (getKey t.token "token") (fun tok =>
  pseq (pemit ("  " ++ toString (i+1) ++ ". Token: " ++ tok.take 20 ++ "...")) (fun _ =>
  pseq (getKey t.device_id "device_id") (fun d =>
  pseq (pemit ("     Device: " ++ d)) (fun _ =>
  pseq (getKey t.platform "platform") (fun p =>
  pseq (pemit ("     Platform: " ++ p)) (fun _ =>
  pseq (getKey t.app_version "app_version") (fun av =>
  pseq (pemit ("     App Version: " ++ av)) (fun _ =>
  pseq (getKey t.updated_at "updated_at") (fun upd =>
  pseq (pemit ("     Updated: " ++ upd)) (fun _ =>
  pemit ""))))))))))

/-- `for i, token in enumerate(tokens)` display loop (no cut here). -/
def printUserTokenLoop : Nat → List TokenRecord → PyM Unit
  | _, [] => pyPure ()
  | i, t :: ts => pseq (printUserTokenEntry i t) (fun _ => printUserTokenLoop (i+1) ts)

/-- The `try:` body of `get_user_fcm_tokens`. -/
def userTokensBody (user_id : String) : HttpResult (List TokenRecord) → PyM Bool
  | HttpResult.exn e => pyRaise e
  | HttpResult.resp code text tokens =>
    if code = 200 then
      pseq (pemit ("✅ Found " ++ toString tokens.length ++ " FCM tokens for user " ++ user_id)) (fun _ =>
      pseq (printUserTokenLoop 0 tokens) (fun _ =>
      pyPure true))
    else
      pseq (pemit ("❌ Failed to get user FCM tokens: " ++ toString code)) (fun _ =>
      pseq (pemit ("Response: " ++ text)) (fun _ =>
      pyPure false))

/-- `FCMTester.get_user_fcm_tokens`, as a function of the HTTP exchange's
outcome. -/
def get_user_fcm_tokens (user_id : String) (r : HttpResult (List TokenRecord)) :
    List String × Bool :=
  let res := pyTry (userTokensBody user_id r)
    (fun e => ["❌ Error getting user FCM tokens: " ++ e])
  (("🔍 Getting FCM tokens for user: " ++ user_id) :: res.1, res.2)

/-! ## `main`: the Command Dispatcher -/

/-- The operator-supplied flags, after `argparse`.  `--user-id` and
`--get-user-tokens` carry a string when supplied (`none` when absent);
the remaining flags are `store_true` booleans.  The required
`--supabase-url` / `--supabase-key` values only feed `FCMTester.init`,
which is modelled separately, since the network is abstracted by
`Backend`. -/
structure Args : Type where
  test_token_reg_flag : Bool
  test_edge_function : Bool
  send_notification_flag : Bool
  user_id : Option String
  test_all_users : Bool
  get_user_tokens : Option String
  run_all_tests : Bool
deriving DecidableEq

/-- The four diagnostic operations the dispatcher can execute. -/
inductive Op : Type
  | health
  | tokenReg
  | sendNotif
  | userTokens
deriving DecidableEq

/-- The backend's behaviour on the three surfaces the harness consumes. -/
structure Backend : Type where
  allTokensResp : HttpResult (List TokenRecord)
  dispatchResp : DispatchRequest → HttpResult DispatchBody
  userTokensResp : String → HttpResult (List TokenRecord)

/-- `tester.test_edge_function_health()` against a backend. -/
def runHealth (b : Backend) : List String × Bool :=
  test_edge_function_health (b.dispatchResp DispatchRequest.healthProbe)

/-- `tester.test_token_registration()` against a backend. -/
def runTokenReg (b : Backend) : List String × Bool :=
  test_token_registration b.allTokensResp

/-- `tester.send_test_notification(test_all_users=True)` against a
backend (aggregate mode's broadcast send). -/
def runSendAll (b : Backend) (t_now : Nat) : List String × Bool :=
  (send_test_notification none true t_now b.dispatchResp).2

/-- Running tally of the dispatcher: executed operations, printed output,
`success_count`, `total_tests`. -/
structure Tally : Type where
  ops : List Op
  out : List String
  succ : Nat
  tot : Nat
deriving DecidableEq

/-- `total_tests += 1; if <op>(): success_count += 1`, recording the
executed operation and its report. -/
def Tally.add (a : Tally) (op : Op) (r : List String × Bool) : Tally :=
  { ops := a.ops ++ [op]
    out := a.out ++ r.1
    succ := a.succ + (if r.2 then 1 else 0)
    tot := a.tot + 1 }

/-- The dispatch loop of `main`: aggregate mode runs the fixed sequence
health → token-registration → broadcast send; selective mode runs each
flagged operation in source order, with `--get-user-tokens` subject to
Python truthiness (an empty string is skipped). -/
def main_acc (args : Args) (b : Backend) (t_now : Nat) : Tally :=
  if args.run_all_tests then
    ((⟨[], ["🚀 Running all FCM tests...\n"], 0, 0⟩ : Tally).add
      Op.health (runHealth b)).add
      Op.tokenReg (runTokenReg b) |>.add
      Op.sendNotif (runSendAll b t_now)
  else
    let a0 : Tally := ⟨[], [], 0, 0⟩
    let a1 := if args.test_edge_function then a0.add Op.health (runHealth b) else a0
    let a2 := if args.test_token_reg_flag then a1.add Op.tokenReg (runTokenReg b) else a1
    let a3 := if args.send_notification_flag then
        a2.add Op.sendNotif
          (send_test_notification args.user_id args.test_all_users t_now b.dispatchResp).2
      else a2
    match args.get_user_tokens with
    | none => a3
    | some u =>
      if u.isEmpty then a3
      else a3.add Op.userTokens (get_user_fcm_tokens u (b.userTokensResp u))

/-- What one invocation of `main` produces: the executed operations, the
full printed output, the final tallies and the process exit status. -/
structure MainResult : Type where
  ops : List Op
  output : List String
  success_count : Nat
  total_tests : Nat
  exit_code : Nat
deriving DecidableEq

/-- The terminal summary and `sys.exit` of `main`. -/
def mainFinish (a : Tally) : MainResult :=
  { ops := a.ops
    output := a.out ++
      [("\n📊 Test Results: " ++ toString a.succ ++ "/" ++ toString a.tot ++ " tests passed"),
       (if a.succ = a.tot then "🎉 All tests passed!"
        else "❌ Some tests failed. Check the output above for details.")]
    success_count := a.succ
    total_tests := a.tot
    exit_code := if a.succ = a.tot then 0 else 1 }

/-- `main`, as a function of the parsed flags, the backend's behaviour and
the current time. -/
def main_run (args : Args) (b : Backend) (t_now : Nat) : MainResult :=
  mainFinish (main_acc args b t_now)

/-! ## Shared concrete fixtures for witnesses and counterexamples -/

/-- A dispatch body with no optional fields present. -/
def emptyDispatchBody : DispatchBody := ⟨none, none, none⟩

/-- A backend whose dispatch endpoint accepts everything with status 200. -/
def okDispatch : DispatchRequest → HttpResult DispatchBody :=
  fun _ => HttpResult.resp 200 "" emptyDispatchBody

/-- A backend answering every surface with an empty 200 response. -/
def okBackend : Backend :=
  { allTokensResp := HttpResult.resp 200 "" []
    dispatchResp := okDispatch
    userTokensResp := fun _ => HttpResult.resp 200 "" [] }

/-- A backend whose dispatch endpoint 500s the health probe but accepts
real notification payloads; token queries succeed with empty lists. -/
def badHealthBackend : Backend :=
  { allTokensResp := HttpResult.resp 200 "" []
    dispatchResp := fun rq =>
      match rq with
      | DispatchRequest.healthProbe =>
        HttpResult.resp 500 "Internal Server Error" emptyDispatchBody
      | DispatchRequest.notif _ => HttpResult.resp 200 "" emptyDispatchBody
    userTokensResp := fun _ => HttpResult.resp 200 "" [] }

/-! ## Claims -/

/-- Claim C2: `test_edge_function_health` returns `true` exactly when the
backend responded with status 200 (full success) or 400 (missing-required-
field rejection); every other status and every transport-level fault
yields `false`. -/
theorem health_true_iff_200_or_400 (r : HttpResult DispatchBody) :
    (test_edge_function_health r).2 = true ↔
      ∃ s t b, r = HttpResult.resp s t b ∧ (s = 200 ∨ s = 400) := by
  cases r with
  | resp s t b =>
    by_cases h : s = 200 ∨ s = 400 <;>
      simp [test_edge_function_health, healthBody, pyTry, pseq, pemit, pyPure, h]
  | exn e =>
    simp [test_edge_function_health, healthBody, pyTry, pyRaise]

/-- Claim C3: the process exit status is 0 exactly when
`success_count = total_tests`; in particular an invocation selecting no
operation at all ends with `total_tests = 0` and exit status 0. -/
theorem exit_zero_iff_all_passed :
    (∀ args b t_now,
      (main_run args b t_now).exit_code = 0 ↔
        (main_run args b t_now).success_count = (main_run args b t_now).total_tests) ∧
    (∀ b t_now uid tau,
      (main_run ⟨false, false, false, uid, tau, none, false⟩ b t_now).total_tests = 0 ∧
      (main_run ⟨false, false, false, uid, tau, none, false⟩ b t_now).exit_code = 0) := by
  constructor
  · intro args b t_now
    by_cases h : (main_acc args b t_now).succ = (main_acc args b t_now).tot <;>
      simp [main_run, mainFinish, h]
  · intro b t_now uid tau
    constructor <;> rfl

/-- Claim C8: a success response carrying an empty token list makes
`test_token_registration` return `true`, and its report carries the
explicit "no active FCM tokens found" notice. -/
theorem token_registration_empty_ok (text : String) :
    (test_token_registration (HttpResult.resp 200 text [])).2 = true ∧
    "⚠️  No active FCM tokens found. Make sure to register tokens from your iOS app first."
      ∈ (test_token_registration (HttpResult.resp 200 text [])).1 := by
  constructor
  · rfl
  · simp [test_token_registration, tokenRegBody, pyTry, pseq, pemit, pyPure]

/-- Claim C9: supplying `--get-user-tokens` with an empty string is
silently skipped — the whole invocation behaves exactly as if the flag
had not been supplied at all (same operations, tally and exit status). -/
theorem empty_user_tokens_flag_skipped (args : Args) (b : Backend) (t_now : Nat)
    (h1 : args.run_all_tests = false) (h2 : args.get_user_tokens = some "") :
    main_run args b t_now = main_run { args with get_user_tokens := none } b t_now := by
  have he : "".isEmpty = true := rfl
  simp [main_run, main_acc, h1, h2, he]

/-- Witness for C9 at a concrete invocation. -/
theorem empty_user_tokens_flag_skipped_witness :
    main_run ⟨true, true, false, none, false, some "", false⟩ okBackend 0 =
      main_run ⟨true, true, false, none, false, none, false⟩ okBackend 0 :=
  empty_user_tokens_flag_skipped ⟨true, true, false, none, false, some "", false⟩
    okBackend 0 rfl rfl

/-- Dropping a prefix on which the predicate holds everywhere. -/
theorem dropWhile_append_of_forall {p : Char → Bool} {a b : List Char}
    (h : ∀ c ∈ a, p c = true) :
    List.dropWhile p (a ++ b) = List.dropWhile p b := by
  induction a with
  | nil => rfl
  | cons x xs ih =>
    have hx : p x = true := h x (by simp)
    simp [List.dropWhile_cons, hx]
    exact ih (fun c hc => h c (by simp [hc]))

/-- Appending trailing slashes does not change the stripped address. -/
theorem rstripSlash_append_slashes (s ext : String)
    (h : ∀ c ∈ ext.data, c = '/') :
    rstripSlash (s ++ ext) = rstripSlash s := by
  have hdata : (s ++ ext).data = s.data ++ ext.data := rfl
  simp only [rstripSlash, rstripSlashList, hdata, List.reverse_append]
  rw [dropWhile_append_of_forall]
  intro c hc
  simp only [List.mem_reverse] at hc
  exact decide_eq_true (h c hc)

/-- Claim C10: `FCMTester.__init__` strips trailing slashes from the base
address, so two addresses differing only in trailing slashes produce
clients issuing every request to identical URLs. -/
theorem trailing_slash_urls_equal (base ext1 ext2 key : String)
    (h1 : ∀ c ∈ ext1.data, c = '/') (h2 : ∀ c ∈ ext2.data, c = '/') :
    (FCMTester.init (base ++ ext1) key).tokenRegUrl =
        (FCMTester.init (base ++ ext2) key).tokenRegUrl ∧
    (FCMTester.init (base ++ ext1) key).dispatchUrl =
        (FCMTester.init (base ++ ext2) key).dispatchUrl ∧
    (FCMTester.init (base ++ ext1) key).userTokensUrl =
        (FCMTester.init (base ++ ext2) key).userTokensUrl := by
  have e1 := rstripSlash_append_slashes base ext1 h1
  have e2 := rstripSlash_append_slashes base ext2 h2
  refine ⟨?_, ?_, ?_⟩ <;>
    simp [FCMTester.init, FCMTester.tokenRegUrl, FCMTester.dispatchUrl,
      FCMTester.userTokensUrl, e1, e2]

/-- Witness for C10: `https://x.supabase.co//` and `https://x.supabase.co`
yield identical request URLs. -/
theorem trailing_slash_urls_equal_witness :
    (FCMTester.init ("https://x.supabase.co" ++ "//") "k").tokenRegUrl =
        (FCMTester.init ("https://x.supabase.co" ++ "") "k").tokenRegUrl ∧
    (FCMTester.init ("https://x.supabase.co" ++ "//") "k").dispatchUrl =
        (FCMTester.init ("https://x.supabase.co" ++ "") "k").dispatchUrl ∧
    (FCMTester.init ("https://x.supabase.co" ++ "//") "k").userTokensUrl =
        (FCMTester.init ("https://x.supabase.co" ++ "") "k").userTokensUrl :=
  trailing_slash_urls_equal "https://x.supabase.co" "//" "" "k"
    (by decide) (by decide)

/-- Counterexample to claim C1 as stated: with BOTH `user_id` and
`test_all_users` supplied, `send_test_notification` is not rejected — it
issues one network request (carrying both selectors) and can return
`true`. -/
theorem both_selectors_not_rejected_cex :
    (send_test_notification (some "user-1") true 0 okDispatch).1 ≠ [] ∧
    (send_test_notification (some "user-1") true 0 okDispatch).2.2 = true := by
  constructor
  · have h : (send_test_notification (some "user-1") true 0 okDispatch).1 =
      [DispatchRequest.notif (notifPayload (some "user-1") true 0)] := rfl
    rw [h]
    simp
  · rfl

/-- Claim C1, amended: supplying NEITHER selector (`user_id` absent or
empty, `test_all_users` false) is rejected before any network call with a
`false` outcome; supplying both is accepted, and the single request issued
carries both selectors in its payload. -/
theorem neither_selector_rejected_no_call :
    (∀ uid tau t_now d, truthyOpt uid = false → tau = false →
      send_test_notification uid tau t_now d =
        ([], ["📤 Sending test notification...",
              "❌ Either user_id or test_all_users must be specified"], false)) ∧
    (∀ uid t_now d, truthyOpt uid = true →
      (send_test_notification uid true t_now d).1 =
        [DispatchRequest.notif (notifPayload uid true t_now)] ∧
      (notifPayload uid true t_now).user_id = uid ∧
      (notifPayload uid true t_now).test_all_users = true) := by
  constructor
  · intro uid tau t_now d h1 h2
    simp [send_test_notification, h1, h2]
  · intro uid t_now d h1
    refine ⟨?_, ?_, rfl⟩ <;> simp [send_test_notification, notifPayload, h1]

/-- Witness for the amended C1 at concrete inputs. -/
theorem neither_selector_rejected_no_call_witness :
    send_test_notification none false 0 okDispatch =
      ([], ["📤 Sending test notification...",
            "❌ Either user_id or test_all_users must be specified"], false) ∧
    (send_test_notification (some "u") true 5 okDispatch).1 =
      [DispatchRequest.notif (notifPayload (some "u") true 5)] :=
  ⟨(neither_selector_rejected_no_call).1 none false 0 okDispatch rfl rfl,
   ((neither_selector_rejected_no_call).2 (some "u") 5 okDispatch rfl).1⟩

/-- Counterexample to claim C4 as stated: with `--get-user-tokens ""`
supplied (and `--test-edge-function`), selective mode does NOT execute the
per-user lookup — only the health check runs. -/
theorem empty_get_user_tokens_not_executed_cex :
    (main_run ⟨false, true, false, none, false, some "", false⟩ okBackend 0).ops
        = [Op.health] ∧
    Op.userTokens ∉
      (main_run ⟨false, true, false, none, false, some "", false⟩ okBackend 0).ops := by
  constructor
  · rfl
  · intro h
    have hops : (main_run ⟨false, true, false, none, false, some "", false⟩ okBackend 0).ops
        = [Op.health] := rfl
    rw [hops] at h
    simp at h

/-- Claim C4, amended: aggregate mode executes exactly health →
token-registration → broadcast send, in that order, for every backend
behaviour (hence regardless of individual failures); selective mode
executes exactly the flagged operations, each at most once, in the order
health, token-registration, send-notification, per-user lookup — where
the per-user lookup counts as flagged only when `--get-user-tokens` was
given a non-empty identifier. -/
theorem modes_execute_exact_ops :
    (∀ args b t_now, args.run_all_tests = true →
      (main_run args b t_now).ops = [Op.health, Op.tokenReg, Op.sendNotif]) ∧
    (∀ args b t_now, args.run_all_tests = false →
      (main_run args b t_now).ops =
        (if args.test_edge_function then [Op.health] else []) ++
        (if args.test_token_reg_flag then [Op.tokenReg] else []) ++
        (if args.send_notification_flag then [Op.sendNotif] else []) ++
        (if truthyOpt args.get_user_tokens then [Op.userTokens] else [])) := by
  constructor
  · intro args b t_now h
    simp [main_run, main_acc, mainFinish, Tally.add, h]
  · intro args b t_now h
    rcases args with ⟨f_reg, f_health, f_send, uid, tau, gut, ra⟩
    simp only at h
    subst h
    cases gut with
    | none =>
      cases f_health <;> cases f_reg <;> cases f_send <;>
        simp [main_run, main_acc, mainFinish, Tally.add, truthyOpt]
    | some u =>
      by_cases hu : u.isEmpty <;>
        cases f_health <;> cases f_reg <;> cases f_send <;>
          simp [main_run, main_acc, mainFinish, Tally.add, truthyOpt, hu]

/-- Witness for the amended C4: an aggregate run and a selective run with
`--test-token-registration` and `--get-user-tokens u1`. -/
theorem modes_execute_exact_ops_witness :
    (main_run ⟨false, false, false, none, false, none, true⟩ okBackend 0).ops
        = [Op.health, Op.tokenReg, Op.sendNotif] ∧
    (main_run ⟨true, false, false, none, false, some "u1", false⟩ okBackend 0).ops
        = ((if true then [Op.tokenReg] else []) ++
           (if truthyOpt (some "u1") then [Op.userTokens] else [])) := by
  constructor
  · exact (modes_execute_exact_ops).1 ⟨false, false, false, none, false, none, true⟩
      okBackend 0 rfl
  · have h := (modes_execute_exact_ops).2 ⟨true, false, false, none, false, some "u1", false⟩
      okBackend 0 rfl
    simpa using h

/-- Claim C7: in aggregate mode, when the health check fails and the
token-registration check and broadcast send both succeed, the report
states "2/3 tests passed" and the process exits with status 1. -/
theorem run_all_health_fail_two_of_three (args : Args) (b : Backend) (t_now : Nat)
    (h : args.run_all_tests = true)
    (h1 : (runHealth b).2 = false)
    (h2 : (runTokenReg b).2 = true)
    (h3 : (runSendAll b t_now).2 = true) :
    (main_run args b t_now).success_count = 2 ∧
    (main_run args b t_now).total_tests = 3 ∧
    (main_run args b t_now).exit_code = 1 ∧
    "\n📊 Test Results: 2/3 tests passed" ∈ (main_run args b t_now).output := by
  have hs : ("\n📊 Test Results: " ++ toString (2 : Nat) ++ "/" ++ toString (3 : Nat)
      ++ " tests passed") = "\n📊 Test Results: 2/3 tests passed" := rfl
  refine ⟨?_, ?_, ?_, ?_⟩ <;>
    simp [main_run, main_acc, mainFinish, Tally.add, h, h1, h2, h3, hs]

/-- Witness for C7: a concrete backend that 500s the health probe but
serves both token queries and notification dispatches. -/
theorem run_all_health_fail_two_of_three_witness :
    (main_run ⟨false, false, false, none, false, none, true⟩ badHealthBackend 0).success_count = 2 ∧
    (main_run ⟨false, false, false, none, false, none, true⟩ badHealthBackend 0).total_tests = 3 ∧
    (main_run ⟨false, false, false, none, false, none, true⟩ badHealthBackend 0).exit_code = 1 ∧
    "\n📊 Test Results: 2/3 tests passed" ∈
      (main_run ⟨false, false, false, none, false, none, true⟩ badHealthBackend 0).output :=
  run_all_health_fail_two_of_three ⟨false, false, false, none, false, none, true⟩
    badHealthBackend 0 rfl (by decide) (by decide) (by decide)

/-- Claim C5: in the token-registration listing and the per-user listing
the displayed token text is exactly the record's token truncated to its
first 20 characters followed by the `...` ellipsis marker, while the
per-device results of `send_test_notification` display the token in
full. -/
theorem token_display_truncation :
    (∀ i t u tok, t.user_id = some u → t.token = some tok →
      ("     Token: " ++ tok.take 20 ++ "...") ∈ (printTokenRegEntry i t).1) ∧
    (∀ i t tok, t.token = some tok →
      ("  " ++ toString (i+1) ++ ". Token: " ++ tok.take 20 ++ "...")
        ∈ (printUserTokenEntry i t).1) ∧
    (∀ i e d p tok, e.device_id = some d → e.platform = some p → e.token = some tok →
      ("        Token: " ++ tok) ∈ (printSendEntry i e).1) := by
  refine ⟨?_, ?_, ?_⟩
  · intro i t u tok h1 h2
    simp [printTokenRegEntry, pseq, getKey, pemit, h1, h2]
  · intro i t tok h
    simp [printUserTokenEntry, pseq, getKey, pemit, h]
  · intro i e d p tok h1 h2 h3
    simp [printSendEntry, pseq, getKey, pemit, h1, h2, h3]

/-- A fully-populated Device Token Record used as witness data. -/
def sampleRecord : TokenRecord :=
  ⟨some "u1", some "tkn-0123456789abcdefghij", some "d1", some "ios",
   some "1.0.0", some "2026-01-01T00:00:00Z"⟩

/-- A fully-populated per-device dispatch result entry. -/
def sampleEntry : DispatchResultEntry := ⟨some "d1", some "ios", some "tkn-full-0123456789"⟩

/-- Witness for C5 on concrete records. -/
theorem token_display_truncation_witness :
    ("     Token: " ++ ("tkn-0123456789abcdefghij").take 20 ++ "...")
      ∈ (printTokenRegEntry 0 sampleRecord).1 ∧
    ("  " ++ toString (0+1) ++ ". Token: " ++ ("tkn-0123456789abcdefghij").take 20 ++ "...")
      ∈ (printUserTokenEntry 0 sampleRecord).1 ∧
    ("        Token: " ++ "tkn-full-0123456789") ∈ (printSendEntry 0 sampleEntry).1 :=
  ⟨token_display_truncation.1 0 sampleRecord "u1" "tkn-0123456789abcdefghij" rfl rfl,
   token_display_truncation.2.1 0 sampleRecord "tkn-0123456789abcdefghij" rfl,
   token_display_truncation.2.2 0 sampleEntry "d1" "ios" "tkn-full-0123456789" rfl rfl rfl⟩

/-! ## Error propagation through the embedding (for claim C6) -/

/-- An exception in the first statement propagates through sequencing. -/
theorem pseq_errored_of_left {α β : Type} (m : PyM α) (f : α → PyM β)
    (h : m.errored = true) : (pseq m f).errored = true := by
  cases hm : m.2 with
  | error e => simp [pseq, PyM.errored, hm]
  | ok a => simp [PyM.errored, hm] at h

/-- An exception in the continuation propagates through sequencing. -/
theorem pseq_errored_of_right {α β : Type} (m : PyM α) (f : α → PyM β) (a : α)
    (hm : m.2 = Except.ok a) (h : (f a).errored = true) :
    (pseq m f).errored = true := by
  cases hf : (f a).2 with
  | error e => simp [pseq, PyM.errored, hm, hf]
  | ok b => simp [PyM.errored, hf] at h

/-- `except Exception` turns any raised exception into a `false` outcome. -/
theorem pyTry_false_of_errored (m : PyM Bool) (handler : String → List String)
    (h : m.errored = true) : (pyTry m handler).2 = false := by
  cases hm : m.2 with
  | error e => simp [pyTry, hm]
  | ok b => simp [PyM.errored, hm] at h

/-- A record missing one of the fields `test_token_registration` reads by
subscript (`user_id`, `token`, `device_id`, `platform`, `updated_at`). -/
def regFault (t : TokenRecord) : Bool :=
  t.user_id.isNone || t.token.isNone || t.device_id.isNone ||
    t.platform.isNone || t.updated_at.isNone

/-- A record missing one of the fields `get_user_fcm_tokens` reads by
subscript (`token`, `device_id`, `platform`, `app_version`, `updated_at`). -/
def userFault (t : TokenRecord) : Bool :=
  t.token.isNone || t.device_id.isNone || t.platform.isNone ||
    t.app_version.isNone || t.updated_at.isNone

/-- A per-device entry missing one of the fields `send_test_notification`
reads by subscript (`device_id`, `platform`, `token`). -/
def sendFault (e : DispatchResultEntry) : Bool :=
  e.device_id.isNone || e.platform.isNone || e.token.isNone

/-- Displaying a registration record with a missing field raises. -/
theorem printTokenRegEntry_errored (i : Nat) (t : TokenRecord)
    (h : regFault t = true) : (printTokenRegEntry i t).errored = true := by
  rcases t with ⟨u, tok, d, p, av, upd⟩
  cases u <;> cases tok <;> cases d <;> cases p <;> cases upd <;>
    simp_all [regFault, printTokenRegEntry, pseq, getKey, pemit, PyM.errored]

/-- Displaying a per-user record with a missing field raises. -/
theorem printUserTokenEntry_errored (i : Nat) (t : TokenRecord)
    (h : userFault t = true) : (printUserTokenEntry i t).errored = true := by
  rcases t with ⟨u, tok, d, p, av, upd⟩
  cases tok <;> cases d <;> cases p <;> cases av <;> cases upd <;>
    simp_all [userFault, printUserTokenEntry, pseq, getKey, pemit, PyM.errored]

/-- Displaying a per-device entry with a missing field raises. -/
theorem printSendEntry_errored (i : Nat) (e : DispatchResultEntry)
    (h : sendFault e = true) : (printSendEntry i e).errored = true := by
  rcases e with ⟨d, p, tok⟩
  cases d <;> cases p <;> cases tok <;>
    simp_all [sendFault, printSendEntry, pseq, getKey, pemit, PyM.errored]

/-- A faulty record anywhere in the registration display loop raises. -/
theorem printTokenRegLoop_errored :
    ∀ (l : List TokenRecord) (i : Nat), (∃ t ∈ l, regFault t = true) →
      (printTokenRegLoop i l).errored = true := by
  intro l
  induction l with
  | nil => intro i h; simp at h
  | cons hd tl ih =>
    intro i h
    rcases h with ⟨t, ht, hf⟩
    rcases List.mem_cons.mp ht with h1 | h2
    · subst h1
      exact pseq_errored_of_left _ _ (printTokenRegEntry_errored i t hf)
    · cases hE : (printTokenRegEntry i hd).2 with
      | error e =>
        exact pseq_errored_of_left _ _ (by simp [PyM.errored, hE])
      | ok a =>
        exact pseq_errored_of_right _ _ a hE (ih (i+1) ⟨t, h2, hf⟩)

/-- A faulty record anywhere in the per-user display loop raises. -/
theorem printUserTokenLoop_errored :
    ∀ (l : List TokenRecord) (i : Nat), (∃ t ∈ l, userFault t = true) →
      (printUserTokenLoop i l).errored = true := by
  intro l
  induction l with
  | nil => intro i h; simp at h
  | cons hd tl ih =>
    intro i h
    rcases h with ⟨t, ht, hf⟩
    rcases List.mem_cons.mp ht with h1 | h2
    · subst h1
      exact pseq_errored_of_left _ _ (printUserTokenEntry_errored i t hf)
    · cases hE : (printUserTokenEntry i hd).2 with
      | error e =>
        exact pseq_errored_of_left _ _ (by simp [PyM.errored, hE])
      | ok a =>
        exact pseq_errored_of_right _ _ a hE (ih (i+1) ⟨t, h2, hf⟩)

/-- A faulty entry anywhere in the per-device display loop raises. -/
theorem printSendLoop_errored :
    ∀ (l : List DispatchResultEntry) (i : Nat), (∃ e ∈ l, sendFault e = true) →
      (printSendLoop i l).errored = true := by
  intro l
  induction l with
  | nil => intro i h; simp at h
  | cons hd tl ih =>
    intro i h
    rcases h with ⟨e, he, hf⟩
    rcases List.mem_cons.mp he with h1 | h2
    · subst h1
      exact pseq_errored_of_left _ _ (printSendEntry_errored i e hf)
    · cases hE : (printSendEntry i hd).2 with
      | error ex =>
        exact pseq_errored_of_left _ _ (by simp [PyM.errored, hE])
      | ok a =>
        exact pseq_errored_of_right _ _ a hE (ih (i+1) ⟨e, h2, hf⟩)

/-- A shape fault among the five displayed records makes the registration
check's body raise. -/
theorem tokenRegBody_errored (text : String) (toks : List TokenRecord)
    (h : ∃ t ∈ toks.take 5, regFault t = true) :
    (tokenRegBody (HttpResult.resp 200 text toks)).errored = true := by
  have hie : toks.isEmpty = false := by
    rcases h with ⟨t, ht, _⟩
    cases toks
    · simp at ht
    · rfl
  have hloop := printTokenRegLoop_errored (toks.take 5) 0 h
  have hB : (pseq (pemit "\n📱 Active FCM tokens:")
      (fun _ => printTokenRegLoop 0 (toks.take 5))).errored = true :=
    pseq_errored_of_right _ _ () rfl hloop
  simp [tokenRegBody, hie]
  exact pseq_errored_of_right _ _ () rfl (pseq_errored_of_left _ _ hB)

/-- A shape fault among the displayed per-user records makes the per-user
lookup's body raise. -/
theorem userTokensBody_errored (u text : String) (toks : List TokenRecord)
    (h : ∃ t ∈ toks, userFault t = true) :
    (userTokensBody u (HttpResult.resp 200 text toks)).errored = true := by
  have hloop := printUserTokenLoop_errored toks 0 h
  simp [userTokensBody]
  exact pseq_errored_of_right _ _ () rfl (pseq_errored_of_left _ _ hloop)

/-- A shape fault among the three displayed per-device entries makes the
send operation's body raise. -/
theorem sendBody_errored (text : String) (body : DispatchBody)
    (rs : List DispatchResultEntry) (hr : body.results = some rs)
    (h : ∃ e ∈ rs.take 3, sendFault e = true) :
    (sendBody (HttpResult.resp 200 text body)).errored = true := by
  have hloop := printSendLoop_errored (rs.take 3) 0 h
  have hM : (pseq (pemit ("   Sent to " ++ toString rs.length ++ " device(s)"))
      (fun _ => printSendLoop 0 (rs.take 3))).errored = true :=
    pseq_errored_of_right _ _ () rfl hloop
  simp [sendBody, hr]
  exact pseq_errored_of_right _ _ () rfl
    (pseq_errored_of_right _ _ () rfl (pseq_errored_of_left _ _ hM))

/-- Claim C6: each operation converts a transport-level fault, and a
success-status response whose body lacks a field the operation reads, into
a `false` outcome.  (That no exception ever escapes an operation is built
into the embedding: each operation is the `pyTry`-guarded body and is a
total function into `Bool`.) -/
theorem ops_catch_faults :
    (∀ e, (test_token_registration (HttpResult.exn e)).2 = false) ∧
    (∀ e, (test_edge_function_health (HttpResult.exn e)).2 = false) ∧
    (∀ e u, (get_user_fcm_tokens u (HttpResult.exn e)).2 = false) ∧
    (∀ e uid tau t_now,
      (send_test_notification uid tau t_now (fun _ => HttpResult.exn e)).2.2 = false) ∧
    (∀ text toks, (∃ t ∈ toks.take 5, regFault t = true) →
      (test_token_registration (HttpResult.resp 200 text toks)).2 = false) ∧
    (∀ u text toks, (∃ t ∈ toks, userFault t = true) →
      (get_user_fcm_tokens u (HttpResult.resp 200 text toks)).2 = false) ∧
    (∀ uid tau t_now d text body rs, (truthyOpt uid || tau) = true →
      d (DispatchRequest.notif (notifPayload uid tau t_now)) = HttpResult.resp 200 text body →
      body.results = some rs → (∃ e ∈ rs.take 3, sendFault e = true) →
      (send_test_notification uid tau t_now d).2.2 = false) := by
  refine ⟨?_, ?_, ?_, ?_, ?_, ?_, ?_⟩
  · intro e; rfl
  · intro e; rfl
  · intro e u; rfl
  · intro e uid tau t_now
    cases hu : truthyOpt uid <;> cases tau <;>
      simp [send_test_notification, hu, sendBody, pyRaise, pyTry]
  · intro text toks h
    have hb := tokenRegBody_errored text toks h
    simp only [test_token_registration]
    exact pyTry_false_of_errored _ _ hb
  · intro u text toks h
    have hb := userTokensBody_errored u text toks h
    simp only [get_user_fcm_tokens]
    exact pyTry_false_of_errored _ _ hb
  · intro uid tau t_now d text body rs htr hd hr h
    have hb := sendBody_errored text body rs hr h
    cases hu : truthyOpt uid with
    | true =>
      simp only [send_test_notification, hu, if_true, hd]
      exact pyTry_false_of_errored _ _ hb
    | false =>
      have htau : tau = true := by
        rw [hu] at htr
        simpa using htr
      subst htau
      simp only [send_test_notification, hu, if_false, if_true, Bool.false_eq_true, hd]
      exact pyTry_false_of_errored _ _ hb

/-- A record whose `token` field is absent: a shape fault for both token
listings. -/
def faultyRecord : TokenRecord :=
  ⟨some "u1", none, some "d1", some "ios", some "1.0.0", some "2026-01-01T00:00:00Z"⟩

/-- A per-device entry whose `device_id` field is absent. -/
def faultyEntry : DispatchResultEntry := ⟨none, some "ios", some "tk"⟩

/-- Witness for C6: the shape-fault conjuncts applied at concrete faulty
responses. -/
theorem ops_catch_faults_witness :
    (test_token_registration (HttpResult.resp 200 "" [faultyRecord])).2 = false ∧
    (get_user_fcm_tokens "u1" (HttpResult.resp 200 "" [faultyRecord])).2 = false ∧
    (send_test_notification none true 0
      (fun _ => HttpResult.resp 200 "" ⟨none, some [faultyEntry], none⟩)).2.2 = false :=
  ⟨ops_catch_faults.2.2.2.2.1 "" [faultyRecord] ⟨faultyRecord, by decide, by decide⟩,
   ops_catch_faults.2.2.2.2.2.1 "u1" "" [faultyRecord] ⟨faultyRecord, by decide, by decide⟩,
   ops_catch_faults.2.2.2.2.2.2 none true 0 _ "" ⟨none, some [faultyEntry], none⟩
     [faultyEntry] rfl rfl rfl ⟨faultyEntry, by decide, by decide⟩⟩
